import Mathlib

/-
Verification development for the collaborative-coding-backend repository.

The definitions below are a shallow embedding of the replica crate
(src/replica/src/rga.rs and src/replica/src/routes.rs).  Conventions:

- Rust u64 fields become Nat (no arithmetic in the embedded code ever
  overflows or subtracts).
- HashMap<S4Vector, Arc<RwLock<Node>>> becomes an association list
  List (S4Vector × Node).  The shared mutable Arc cells are modelled by
  in-place updates of the entry at the corresponding key: every mutation
  through an Arc obtained from the map is a mapModify at that key, and
  HashMap::insert, which replaces the binding (severing aliasing with the
  previously stored Arc), is mapInsert.
- Functions that can panic (HashMap indexing with a missing key,
  Option::unwrap on None) or diverge (pointer-chasing loops on a cyclic
  next chain) return Option, with none for the aborted or divergent run.
  The loops in insert_into_list and read are given fuel
  hashMap.length + 2; a run that exhausts this fuel must have visited
  some key twice, the traversal from a repeated key repeats forever, so
  fuel exhaustion coincides exactly with divergence of the Rust loop.
- Database and SNS calls in routes.rs are modelled as pure list writes
  that always succeed; I/O failure branches are out of scope.  The Uuid
  document_id, threaded through unchanged, is omitted.
-/

/-- S4Vector version identifier.  Modelled from the spec: the file
s4vector.rs is declared in lib.rs but absent from src, so the struct is
taken from spec section 3: four unsigned components (ssn, sum, sid, seq). -/
structure S4Vector where
  ssn : Nat
  sum : Nat
  sid : Nat
  seq : Nat
  deriving DecidableEq, Repr

/-- Modelled from the spec: the total order on S4Vectors is lexicographic
over (ssn, sum, sid, seq) (spec sections 3 and 4.1); the Ord impl lives in
the missing s4vector.rs. -/
def s4Lt (a b : S4Vector) : Bool :=
  Nat.blt a.ssn b.ssn ||
    (a.ssn == b.ssn && (Nat.blt a.sum b.sum ||
      (a.sum == b.sum && (Nat.blt a.sid b.sid ||
        (a.sid == b.sid && Nat.blt a.seq b.seq)))))

/-- Modelled from the spec: S4Vector::generate (missing s4vector.rs),
spec section 4.1: ssn is the session, sid the site, seq the
fetch-and-increment of the local counter (the caller passes the fetched
value and bumps the counter), and sum is 1 + max of the neighbor sums,
zero where a neighbor is absent. -/
def S4Vector.generate (left right : Option S4Vector) (ssn sid seq : Nat) : S4Vector :=
  { ssn := ssn
    sum := 1 + max
      (match left with | some l => l.sum | none => 0)
      (match right with | some r => r.sum | none => 0)
    sid := sid
    seq := seq }

/-- Node of the RGA (rga.rs lines 50-57). -/
structure Node where
  value : String
  s4vector : S4Vector
  tombstone : Bool
  left : Option S4Vector
  right : Option S4Vector
  deriving DecidableEq, Repr

/-- Node::new (rga.rs lines 119-132): tombstone starts false. -/
def Node.new (value : String) (s4 : S4Vector) (left right : Option S4Vector) : Node :=
  { value := value, s4vector := s4, tombstone := false, left := left, right := right }

/-- OperationType (rga.rs lines 60-65). -/
inductive OperationType where
  | Insert
  | Update
  | Delete
  deriving DecidableEq, Repr

/-- Buffered Operation (rga.rs lines 74-82). -/
structure Operation where
  operation : OperationType
  s4vector : S4Vector
  value : Option String
  tombstone : Bool
  left : Option S4Vector
  right : Option S4Vector
  deriving DecidableEq, Repr

/-- OperationError (rga.rs lines 102-106); the source spells it
DependancyError. -/
inductive OperationError where
  | DependancyError
  deriving DecidableEq, Repr

/-- BroadcastOperation (json_structures.rs lines 86-96) without the Uuid
document_id, which is carried through unchanged.  The i64 columns hold
u64 casts; the values stay small so they are modelled as Nat. -/
structure BroadcastOperation where
  operation : String
  ssn : Nat
  sum : Nat
  sid : Nat
  seq : Nat
  value : Option String
  left : Option S4Vector
  right : Option S4Vector
  deriving DecidableEq, Repr

/-- BroadcastOperation::s4vector (json_structures.rs lines 100-107). -/
def BroadcastOperation.s4vector (op : BroadcastOperation) : S4Vector :=
  { ssn := op.ssn, sum := op.sum, sid := op.sid, seq := op.seq }

/-- HashMap::get on the association-list model of hash_map. -/
def mapGet (m : List (S4Vector × Node)) (k : S4Vector) : Option Node :=
  match m with
  | [] => none
  | (k2, n) :: rest => if k2 = k then some n else mapGet rest k

/-- HashMap::contains_key. -/
def mapContains (m : List (S4Vector × Node)) (k : S4Vector) : Bool :=
  (mapGet m k).isSome

/-- HashMap::insert: replaces the binding at the key, else appends. -/
def mapInsert (m : List (S4Vector × Node)) (k : S4Vector) (n : Node) :
    List (S4Vector × Node) :=
  match m with
  | [] => [(k, n)]
  | (k2, n2) :: rest =>
      if k2 = k then (k2, n) :: rest else (k2, n2) :: mapInsert rest k n

/-- Mutation of the Node behind the Arc stored at key k (a write through
a lock guard obtained from hash_map.get). -/
def mapModify (m : List (S4Vector × Node)) (k : S4Vector) (f : Node → Node) :
    List (S4Vector × Node) :=
  match m with
  | [] => []
  | (k2, n) :: rest =>
      if k2 = k then (k2, f n) :: rest else (k2, n) :: mapModify rest k f

/-- RGA document state (rga.rs lines 87-100).  hash_map is the by_id
map, buffer the pending queue. -/
structure RGA where
  head : Option S4Vector
  hashMap : List (S4Vector × Node)
  buffer : List Operation
  sessionId : Nat
  siteId : Nat
  localSequence : Nat
  deriving DecidableEq, Repr

/-- RGA::new (rga.rs lines 193-202). -/
def RGA.new (sessionId siteId : Nat) : RGA :=
  { head := none, hashMap := [], buffer := [], sessionId := sessionId
    siteId := siteId, localSequence := 0 }

/-- The while loop of insert_into_list (rga.rs lines 238-248).  Inside
the loop the name node is REBOUND to the map entry at current, shadowing
the function argument, so the comparison next_s4 > node.s4vector compares
the successor of the scan position with the scan position itself, never
with the node being inserted.  The loop advances while the successor is
not greater than the current node; fuel exhaustion models divergence. -/
def findSlot (m : List (S4Vector × Node)) (current : S4Vector) (fuel : Nat) :
    Option S4Vector :=
  match fuel with
  | 0 => none
  | Nat.succ fuel2 =>
      match mapGet m current with
      | none => some current
      | some nd =>
          match nd.right with
          | none => some current
          | some next =>
              if s4Lt nd.s4vector next then some current
              else findSlot m next fuel2

/-- RGA::insert_into_list (rga.rs lines 234-263).  With a left anchor the
slot is located by findSlot and the new node is spliced after it when the
slot key is present (the new node takes the old right of the slot, whose
right then becomes the new node); with no left anchor nothing is linked.
head is set to the new node when head is empty or when left is absent
(rga.rs lines 256-260), which replaces the previous head without linking
it.  Returns the updated state together with the (possibly right-mutated)
node, as the Rust function returns the Arc. -/
def RGA.insert_into_list (st : RGA) (nd : Node) : Option (RGA × Node) :=
  match nd.left with
  | some l =>
      match findSlot st.hashMap l (st.hashMap.length + 2) with
      | none => none
      | some current =>
          match mapGet st.hashMap current with
          | some other =>
              let nd2 := { nd with right := other.right }
              let m2 := mapModify st.hashMap current
                (fun o => { o with right := some nd2.s4vector })
              let st2 := { st with hashMap := m2 }
              let st3 :=
                if st2.head.isNone then { st2 with head := some nd2.s4vector } else st2
              some (st3, nd2)
          | none =>
              let st3 :=
                if st.head.isNone then { st with head := some nd.s4vector } else st
              some (st3, nd)
  | none =>
      some ({ st with head := some nd.s4vector }, nd)

/-- RGA::remote_insert (rga.rs lines 505-526).  There is no duplicate
check: an existing binding at the same S4Vector is overwritten by
hash_map.insert.  The trailing Box::pin holding
apply_buffered_operations is bound to a discarded variable and never
awaited, so no buffer sweep runs here. -/
def RGA.remote_insert (st : RGA) (value : String) (s4 : S4Vector)
    (left right : Option S4Vector) : Option RGA :=
  match st.insert_into_list (Node.new value s4 left right) with
  | none => none
  | some (st2, nd2) =>
      some { st2 with hashMap := mapInsert st2.hashMap nd2.s4vector nd2 }

/-- RGA::remote_delete (rga.rs lines 530-542).  A missing target returns
silently without buffering; the Box::pin sweep is never awaited. -/
def RGA.remote_delete (st : RGA) (s4 : S4Vector) : RGA :=
  match mapGet st.hashMap s4 with
  | none => st
  | some _ =>
      { st with hashMap := mapModify st.hashMap s4 (fun n => { n with tombstone := true }) }

/-- RGA::remote_update (rga.rs lines 546-554).  The map is indexed
directly (hash_map[&s4vector]), which panics when the key is absent:
modelled as none.  The Box::pin sweep is never awaited. -/
def RGA.remote_update (st : RGA) (s4 : S4Vector) (value : String) : Option RGA :=
  match mapGet st.hashMap s4 with
  | none => none
  | some n =>
      if n.tombstone then some st
      else some { st with hashMap := mapModify st.hashMap s4 (fun m => { m with value := value }) }

/-- Dispatch of one buffered operation (rga.rs lines 589-609); an insert
or update entry with no value falls through the if-let and is dropped. -/
def applyOp (st : RGA) (op : Operation) : Option RGA :=
  match op.operation with
  | OperationType.Insert =>
      match op.value with
      | some v => st.remote_insert v op.s4vector op.left op.right
      | none => some st
  | OperationType.Update =>
      match op.value with
      | some v => st.remote_update op.s4vector v
      | none => some st
  | OperationType.Delete => some (st.remote_delete op.s4vector)

/-- The loop of apply_buffered_operations (rga.rs lines 581-610): one
pass over a clone of the buffer; an entry whose left is named and missing
is pushed to new_buffer, every other entry is dispatched.  Only left is
ever checked, not the target id of update or delete entries. -/
def sweepGo (ops : List Operation) (st : RGA) (acc : List Operation) :
    Option (RGA × List Operation) :=
  match ops with
  | [] => some (st, acc)
  | op :: rest =>
      match op.left with
      | some l =>
          if mapContains st.hashMap l then
            match applyOp st op with
            | none => none
            | some st2 => sweepGo rest st2 acc
          else
            sweepGo rest st (acc ++ [op])
      | none =>
          match applyOp st op with
          | none => none
          | some st2 => sweepGo rest st2 acc

/-- RGA::apply_buffered_operations (rga.rs lines 578-613). -/
def RGA.apply_buffered_operations (st : RGA) : Option RGA :=
  match sweepGo st.buffer st [] with
  | none => none
  | some (st2, newBuffer) => some { st2 with buffer := newBuffer }

/-- Shared success tail of the four local_insert arms (rga.rs lines
375-402): wrap the node, splice, insert into hash_map, run the buffer
sweep, then build the broadcast from the node read back after the sweep
(the final read goes through the same Arc that was stored, modelled as a
map lookup at the key; the lookup cannot fail since keys are never
removed). -/
def localInsertCommit (st : RGA) (s4 : S4Vector) (value : String)
    (left right : Option S4Vector) :
    Option (RGA × Except OperationError BroadcastOperation) :=
  let nd := Node.new value s4 left right
  match st.insert_into_list nd with
  | none => none
  | some (st2, nd2) =>
      let st3 := { st2 with hashMap := mapInsert st2.hashMap nd2.s4vector nd2 }
      match st3.apply_buffered_operations with
      | none => none
      | some st4 =>
          match mapGet st4.hashMap nd2.s4vector with
          | none => none
          | some n =>
              some (st4, Except.ok
                { operation := "Insert", ssn := n.s4vector.ssn, sum := n.s4vector.sum
                  sid := n.s4vector.sid, seq := n.s4vector.seq, value := some n.value
                  left := n.left, right := n.right })

/-- RGA::local_insert (rga.rs lines 282-403).  Each arm first generates
the S4Vector (consuming a sequence number even when the operation is then
buffered); with a left anchor only the left anchor is checked against
hash_map, with only a right anchor the right anchor is checked, with no
anchors nothing is checked.  A failed check pushes an Insert entry to the
buffer and returns the dependency error. -/
def RGA.local_insert (st : RGA) (value : String) (left right : Option S4Vector) :
    Option (RGA × Except OperationError BroadcastOperation) :=
  let seq0 := st.localSequence
  let st1 := { st with localSequence := seq0 + 1 }
  match left, right with
  | some l, some r =>
      let s4 := S4Vector.generate (some l) (some r) st.sessionId st.siteId seq0
      if mapContains st1.hashMap l then
        localInsertCommit st1 s4 value (some l) (some r)
      else
        some ({ st1 with buffer := st1.buffer ++
          [{ operation := OperationType.Insert, s4vector := s4, value := some value
             tombstone := false, left := some l, right := some r }] },
          Except.error OperationError.DependancyError)
  | some l, none =>
      let s4 := S4Vector.generate (some l) none st.sessionId st.siteId seq0
      if mapContains st1.hashMap l then
        localInsertCommit st1 s4 value (some l) none
      else
        some ({ st1 with buffer := st1.buffer ++
          [{ operation := OperationType.Insert, s4vector := s4, value := some value
             tombstone := false, left := some l, right := none }] },
          Except.error OperationError.DependancyError)
  | none, some r =>
      let s4 := S4Vector.generate none (some r) st.sessionId st.siteId seq0
      if mapContains st1.hashMap r then
        localInsertCommit st1 s4 value none (some r)
      else
        some ({ st1 with buffer := st1.buffer ++
          [{ operation := OperationType.Insert, s4vector := s4, value := some value
             tombstone := false, left := none, right := some r }] },
          Except.error OperationError.DependancyError)
  | none, none =>
      let s4 := S4Vector.generate none none st.sessionId st.siteId seq0
      localInsertCommit st1 s4 value none none

/-- RGA::local_delete (rga.rs lines 412-450): a missing target buffers a
Delete entry (value none, no anchors) and returns the dependency error;
otherwise the tombstone is set, the buffer sweep runs, and the broadcast
is built from the node read back after the sweep. -/
def RGA.local_delete (st : RGA) (s4 : S4Vector) :
    Option (RGA × Except OperationError BroadcastOperation) :=
  match mapGet st.hashMap s4 with
  | none =>
      some ({ st with buffer := st.buffer ++
        [{ operation := OperationType.Delete, s4vector := s4, value := none
           tombstone := false, left := none, right := none }] },
        Except.error OperationError.DependancyError)
  | some _ =>
      let m1 := mapModify st.hashMap s4 (fun n => { n with tombstone := true })
      let st1 := { st with hashMap := m1 }
      match st1.apply_buffered_operations with
      | none => none
      | some st2 =>
          match mapGet st2.hashMap s4 with
          | none => none
          | some n =>
              some (st2, Except.ok
                { operation := "Delete", ssn := n.s4vector.ssn, sum := n.s4vector.sum
                  sid := n.s4vector.sid, seq := n.s4vector.seq, value := none
                  left := n.left, right := n.right })

/-- RGA::local_update (rga.rs lines 459-501): a missing target buffers an
Update entry (no anchors) and returns the dependency error; otherwise the
value is written only when the node is not tombstoned, the buffer sweep
runs, and the broadcast carries the node value read back after the sweep
- for a tombstoned node that is the unchanged old value, still under an
Ok result. -/
def RGA.local_update (st : RGA) (s4 : S4Vector) (value : String) :
    Option (RGA × Except OperationError BroadcastOperation) :=
  match mapGet st.hashMap s4 with
  | none =>
      some ({ st with buffer := st.buffer ++
        [{ operation := OperationType.Update, s4vector := s4, value := some value
           tombstone := false, left := none, right := none }] },
        Except.error OperationError.DependancyError)
  | some n =>
      let m1 := mapModify st.hashMap s4 (fun m => { m with value := value })
      let st1 := if n.tombstone then st else { st with hashMap := m1 }
      match st1.apply_buffered_operations with
      | none => none
      | some st2 =>
          match mapGet st2.hashMap s4 with
          | none => none
          | some n2 =>
              some (st2, Except.ok
                { operation := "Update", ssn := n2.s4vector.ssn, sum := n2.s4vector.sum
                  sid := n2.s4vector.sid, seq := n2.s4vector.seq, value := some n2.value
                  left := n2.left, right := n2.right })

/-- The while loop of RGA::read (rga.rs lines 560-576): follow right from
head, pushing the value of every non-tombstoned node, stopping at a
missing key; fuel exhaustion models divergence on a cyclic chain. -/
def readGo (m : List (S4Vector × Node)) (fuel : Nat) (cur : Option S4Vector)
    (acc : List String) : Option (List String) :=
  match cur with
  | none => some acc.reverse
  | some c =>
      match fuel with
      | 0 => none
      | Nat.succ fuel2 =>
          match mapGet m c with
          | none => some acc.reverse
          | some nd =>
              readGo m fuel2 nd.right (if nd.tombstone then acc else nd.value :: acc)

/-- RGA::read (rga.rs lines 560-576). -/
def RGA.read (st : RGA) : Option (List String) :=
  readGo st.hashMap (st.hashMap.length + 2) st.head []

/-- ApiError kinds used by the modelled routes (error.rs is absent from
src; only the variants named in routes.rs are modelled). -/
inductive ApiError where
  | RequestFailed
  | DatabaseError
  | InternalServerError
  deriving DecidableEq, Repr

/-- One row of the operations table or of the document_snapshots table
(routes.rs SQL statements): the S4Vector quadruple, the value column and
the tombstone column.  document_id and timestamp are omitted (the model
is per document). -/
structure DbRow where
  s4 : S4Vector
  value : String
  tombstone : Bool
  deriving DecidableEq, Repr

/-- Upsert on the quadruple key, the ON CONFLICT DO UPDATE statement of
the update and delete routes. -/
def snapUpsert (rows : List DbRow) (s4 : S4Vector) (value : String)
    (tombstone : Bool) : List DbRow :=
  match rows with
  | [] => [{ s4 := s4, value := value, tombstone := tombstone }]
  | r :: rest =>
      if r.s4 = s4 then { s4 := s4, value := value, tombstone := tombstone } :: rest
      else r :: snapUpsert rest s4 value tombstone

/-- Observable controller state for one document: the in-memory RGA, the
operations log, the snapshot table and the multiset of published
broadcasts.  Database and SNS calls always succeed in the model. -/
structure World where
  rga : RGA
  opsLog : List DbRow
  snapshot : List DbRow
  published : List BroadcastOperation
  deriving DecidableEq, Repr

/-- The insert route (routes.rs lines 311-466): a missing value is a
request error; local_insert runs next, and on a dependency error the
route returns before any log append, snapshot write or publish (lines
349-360).  On success the route appends the operation row and the
snapshot row with the REQUEST value and tombstone false (lines 398-441),
publishes, and commits. -/
def insertRoute (w : World) (value : Option String) (left right : Option S4Vector) :
    Option (World × Except ApiError Unit) :=
  match value with
  | none => some (w, Except.error ApiError.RequestFailed)
  | some v =>
      match w.rga.local_insert v left right with
      | none => none
      | some (rga2, Except.error _) =>
          some ({ w with rga := rga2 }, Except.error ApiError.RequestFailed)
      | some (rga2, Except.ok op) =>
          some ({ rga := rga2
                  opsLog := w.opsLog ++ [{ s4 := op.s4vector, value := v, tombstone := false }]
                  snapshot := w.snapshot ++ [{ s4 := op.s4vector, value := v, tombstone := false }]
                  published := w.published ++ [op] },
            Except.ok ())

/-- The update route (routes.rs lines 468-607): missing value is a
request error, then local_update on request.s4vector.unwrap() (none
panics); dependency error returns before any write; success appends the
operation row, upserts the snapshot row with the request value and
tombstone false (lines 526, 566-576), commits and publishes. -/
def updateRoute (w : World) (value : Option String) (s4opt : Option S4Vector) :
    Option (World × Except ApiError Unit) :=
  match value with
  | none => some (w, Except.error ApiError.RequestFailed)
  | some v =>
      match s4opt with
      | none => none
      | some s4 =>
          match w.rga.local_update s4 v with
          | none => none
          | some (rga2, Except.error _) =>
              some ({ w with rga := rga2 }, Except.error ApiError.RequestFailed)
          | some (rga2, Except.ok op) =>
              some ({ rga := rga2
                      opsLog := w.opsLog ++ [{ s4 := op.s4vector, value := v, tombstone := false }]
                      snapshot := snapUpsert w.snapshot op.s4vector v false
                      published := w.published ++ [op] },
                Except.ok ())

/-- The delete route (routes.rs lines 609-735): local_delete on
request.s4vector.unwrap() (none panics); dependency error returns before
any write; success appends an operation row and upserts the snapshot row
with value the EMPTY STRING and tombstone FALSE (lines 679-718), commits
and publishes. -/
def deleteRoute (w : World) (s4opt : Option S4Vector) :
    Option (World × Except ApiError Unit) :=
  match s4opt with
  | none => none
  | some s4 =>
      match w.rga.local_delete s4 with
      | none => none
      | some (rga2, Except.error _) =>
          some ({ w with rga := rga2 }, Except.error ApiError.RequestFailed)
      | some (rga2, Except.ok op) =>
          some ({ rga := rga2
                  opsLog := w.opsLog ++ [{ s4 := op.s4vector, value := "", tombstone := false }]
                  snapshot := snapUpsert w.snapshot op.s4vector "" false
                  published := w.published ++ [op] },
            Except.ok ())

/-- Boolean order used by the snapshot scan ORDER BY ssn, sum, sid, seq. -/
def s4Le (a b : S4Vector) : Bool :=
  s4Lt a b || decide (a = b)

/-- Insertion of one row into a list sorted by the quadruple. -/
def sortInsertRow (r : DbRow) (rows : List DbRow) : List DbRow :=
  match rows with
  | [] => [r]
  | r2 :: rest =>
      if s4Le r.s4 r2.s4 then r :: r2 :: rest else r2 :: sortInsertRow r rest

/-- The ORDER BY (ssn, sum, sid, seq) of the snapshot scan in
fetch_document (routes.rs line 224). -/
def sortByS4 (rows : List DbRow) : List DbRow :=
  rows.foldr sortInsertRow []

/-- The replay loop of fetch_document (routes.rs lines 265-274): each
snapshot row is fed to remote_insert with both anchors absent; the row
tombstone column is read but never passed, so every restored node is
live. -/
def replaySnapshot (st : RGA) (rows : List DbRow) : Option RGA :=
  match rows with
  | [] => some st
  | row :: rest =>
      match st.remote_insert row.value row.s4 none none with
      | none => none
      | some st2 => replaySnapshot st2 rest

/-- fetch_document (routes.rs lines 199-279): scan the snapshot rows in
quadruple order and replay them into RGA::new(replica_id, 1). -/
def fetch_document (replicaId : Nat) (rows : List DbRow) : Option RGA :=
  replaySnapshot (RGA.new replicaId 1) (sortByS4 rows)

/-- handle_sns_notification (routes.rs lines 738-779): dispatch on the
operation tag; Insert and Update unwrap the value (none panics); an
unknown tag is a request error.  No persistence happens on this path. -/
def handle_sns_notification (st : RGA) (op : BroadcastOperation) :
    Option (RGA × Except ApiError Unit) :=
  match op.operation with
  | "Insert" =>
      match op.value with
      | none => none
      | some v =>
          match st.remote_insert v op.s4vector op.left op.right with
          | none => none
          | some st2 => some (st2, Except.ok ())
  | "Update" =>
      match op.value with
      | none => none
      | some v =>
          match st.remote_update op.s4vector v with
          | none => none
          | some st2 => some (st2, Except.ok ())
  | "Delete" => some (st.remote_delete op.s4vector, Except.ok ())
  | _ => some (st, Except.error ApiError.RequestFailed)

/-- Identifier minted by the first local insert of replica 1 in the
convergence scenario. -/
def c1IdX : S4Vector := { ssn := 1, sum := 1, sid := 1, seq := 0 }

/-- Identifier minted by the first local insert of replica 2 in the
convergence scenario. -/
def c1IdY : S4Vector := { ssn := 1, sum := 1, sid := 2, seq := 0 }

/-- Replica 1: local insert of X at the head, then remote delivery of the
insert of Y that replica 2 minted. -/
def c1Replica1 : Option RGA :=
  ((RGA.new 1 1).local_insert "X" none none).bind fun p =>
    p.1.remote_insert "Y" c1IdY none none

/-- Replica 2: local insert of Y at the head, then remote delivery of the
insert of X that replica 1 minted. -/
def c1Replica2 : Option RGA :=
  ((RGA.new 1 2).local_insert "Y" none none).bind fun p =>
    p.1.remote_insert "X" c1IdX none none

/-- First remote insert of the anchor-ordering scenario: the anchor. -/
def c2A : S4Vector := { ssn := 1, sum := 1, sid := 1, seq := 1 }

/-- Second concurrent insert at anchor c2A, smaller identifier. -/
def c2B : S4Vector := { ssn := 1, sum := 2, sid := 2, seq := 1 }

/-- First concurrent insert at anchor c2A, greater identifier. -/
def c2C : S4Vector := { ssn := 1, sum := 2, sid := 3, seq := 1 }

/-- Deliver the anchor, then the greater insert at the anchor, then the
smaller insert at the same anchor. -/
def c2St : Option RGA :=
  ((RGA.new 1 1).remote_insert "A" c2A none none).bind fun s1 =>
    (s1.remote_insert "C" c2C (some c2A) none).bind fun s2 =>
      s2.remote_insert "B" c2B (some c2A) none

/-- Head element of the duplicate-delivery scenario. -/
def c3A : S4Vector := { ssn := 1, sum := 1, sid := 1, seq := 1 }

/-- Element inserted after c3A in the duplicate-delivery scenario. -/
def c3B : S4Vector := { ssn := 1, sum := 2, sid := 1, seq := 2 }

/-- State after delivering insert A and insert B (left anchor A) once. -/
def c3Once : Option RGA :=
  ((RGA.new 1 2).remote_insert "A" c3A none none).bind fun s1 =>
    s1.remote_insert "B" c3B (some c3A) none

/-- Same state after redelivering the very same insert of B once more. -/
def c3Twice : Option RGA :=
  c3Once.bind fun s => s.remote_insert "B" c3B (some c3A) none

/-- Identifier of the element inserted, deleted, then redelivered. -/
def c5A : S4Vector := { ssn := 1, sum := 1, sid := 1, seq := 1 }

/-- State after remote insert of A followed by remote delete of A. -/
def c5Mid : Option RGA :=
  ((RGA.new 1 2).remote_insert "A" c5A none none).map fun s1 =>
    s1.remote_delete c5A

/-- Same state after the original remote insert of A is delivered again. -/
def c5Final : Option RGA :=
  c5Mid.bind fun s => s.remote_insert "A" c5A none none

/-- Identifier of the element whose delete arrives before its insert. -/
def c6A : S4Vector := { ssn := 1, sum := 1, sid := 2, seq := 1 }

/-- Empty replica after the early remote delete of c6A. -/
def c6St1 : RGA := (RGA.new 1 1).remote_delete c6A

/-- The same replica after the remote insert of A then arrives. -/
def c6St2 : Option RGA := c6St1.remote_insert "A" c6A none none

/-- Fresh controller state for the snapshot round-trip scenario. -/
def c4W0 : World :=
  { rga := RGA.new 1 1, opsLog := [], snapshot := [], published := [] }

/-- Identifier minted by the local insert of A in the round-trip
scenario. -/
def c4A : S4Vector := { ssn := 1, sum := 1, sid := 1, seq := 0 }

/-- Controller state after the insert route stores A. -/
def c4W1 : Option World := (insertRoute c4W0 (some "A") none none).map Prod.fst

/-- Controller state after the delete route tombstones A in memory and
upserts the snapshot row. -/
def c4W2 : Option World := c4W1.bind fun w => (deleteRoute w (some c4A)).map Prod.fst

/-- The anchor node present in the sweep scenario. -/
def c7A : S4Vector := { ssn := 1, sum := 1, sid := 1, seq := 1 }

/-- The anchor node value in the sweep scenario. -/
def c7NodeA : Node :=
  { value := "A", s4vector := c7A, tombstone := false, left := none, right := none }

/-- A buffered insert whose left anchor c7A is present in by_id. -/
def c7OpB : Operation :=
  { operation := OperationType.Insert, s4vector := { ssn := 1, sum := 2, sid := 1, seq := 2 }
    value := some "B", tombstone := false, left := some c7A, right := none }

/-- Replica holding the anchor and the ready buffered insert. -/
def c7St : RGA :=
  { head := some c7A, hashMap := [(c7A, c7NodeA)], buffer := [c7OpB]
    sessionId := 1, siteId := 1, localSequence := 2 }

/-- Post-sweep state used by the witness to the amended sweep claim. -/
def c7WitSt2 : RGA := (RGA.apply_buffered_operations c7St).getD (RGA.new 0 0)

/-- The present left anchor in the dependency-error scenario. -/
def c8A : S4Vector := { ssn := 1, sum := 1, sid := 1, seq := 1 }

/-- Node for the present left anchor c8A. -/
def c8NodeA : Node :=
  { value := "A", s4vector := c8A, tombstone := false, left := none, right := none }

/-- A right anchor that is absent from by_id. -/
def c8R : S4Vector := { ssn := 7, sum := 7, sid := 7, seq := 7 }

/-- Replica holding only the left anchor. -/
def c8St : RGA :=
  { head := some c8A, hashMap := [(c8A, c8NodeA)], buffer := []
    sessionId := 1, siteId := 1, localSequence := 5 }

/-- The tombstoned target of the update-on-tombstone scenario. -/
def c10A : S4Vector := { ssn := 1, sum := 1, sid := 1, seq := 0 }

/-- The tombstoned node at c10A. -/
def c10NodeA : Node :=
  { value := "A", s4vector := c10A, tombstone := true, left := none, right := none }

/-- A target id absent from by_id, named by a buffered update. -/
def c10M : S4Vector := { ssn := 9, sum := 9, sid := 9, seq := 9 }

/-- Replica holding the tombstoned node and a buffered update entry whose
target c10M is still missing: sweeping it panics. -/
def c10St : RGA :=
  { head := some c10A, hashMap := [(c10A, c10NodeA)]
    buffer := [{ operation := OperationType.Update, s4vector := c10M, value := some "v"
                 tombstone := false, left := none, right := none }]
    sessionId := 1, siteId := 1, localSequence := 2 }

/-- Replica holding the tombstoned node with an empty buffer, for the
witness to the amended claim. -/
def c10WSt : RGA :=
  { head := some c10A, hashMap := [(c10A, c10NodeA)], buffer := []
    sessionId := 1, siteId := 1, localSequence := 2 }

/-- The run of local_update on the tombstoned node used by the witness. -/
def c10WP : RGA × Except OperationError BroadcastOperation :=
  (c10WSt.local_update c10A "z").getD (c10WSt, Except.error OperationError.DependancyError)

/-- Projection of a node to the components never touched by splicing:
value and tombstone. -/
def nodeView (n : Node) : String × Bool := (n.value, n.tombstone)

theorem mapGet_mapInsert (m : List (S4Vector × Node)) (k a : S4Vector) (n : Node) :
    mapGet (mapInsert m k n) a = if k = a then some n else mapGet m a := by
  induction m with
  | nil => simp [mapGet, mapInsert]
  | cons hd t ih =>
      obtain ⟨k2, n2⟩ := hd
      by_cases hk : k2 = k
      · subst hk
        by_cases ha : k2 = a <;> simp [mapGet, mapInsert, ha]
      · by_cases ha : k2 = a
        · subst ha
          have hka : k ≠ k2 := fun hh => hk hh.symm
          simp [mapGet, mapInsert, hk, hka]
        · simp [mapGet, mapInsert, hk, ha, ih]

theorem mapGet_mapModify (m : List (S4Vector × Node)) (k a : S4Vector) (f : Node → Node) :
    mapGet (mapModify m k f) a
      = if k = a then (mapGet m a).map f else mapGet m a := by
  induction m with
  | nil => simp [mapGet, mapModify]
  | cons hd t ih =>
      obtain ⟨k2, n2⟩ := hd
      by_cases hk : k2 = k
      · subst hk
        by_cases ha : k2 = a <;> simp [mapGet, mapModify, ha]
      · by_cases ha : k2 = a
        · subst ha
          have hka : k ≠ k2 := fun hh => hk hh.symm
          simp [mapGet, mapModify, hk, hka]
        · simp [mapGet, mapModify, hk, ha, ih]

theorem insert_into_list_buffer (st : RGA) (nd : Node) (st2 : RGA) (nd2 : Node)
    (h : st.insert_into_list nd = some (st2, nd2)) : st2.buffer = st.buffer := by
  unfold RGA.insert_into_list at h
  split at h
  · split at h
    · cases h
    · split at h
      · simp only [Option.some.injEq, Prod.mk.injEq] at h
        rw [← h.1]
        split <;> rfl
      · simp only [Option.some.injEq, Prod.mk.injEq] at h
        rw [← h.1]
        split <;> rfl
  · simp only [Option.some.injEq, Prod.mk.injEq] at h
    rw [← h.1]

theorem insert_into_list_s4 (st : RGA) (nd : Node) (st2 : RGA) (nd2 : Node)
    (h : st.insert_into_list nd = some (st2, nd2)) : nd2.s4vector = nd.s4vector := by
  unfold RGA.insert_into_list at h
  split at h
  · split at h
    · cases h
    · split at h
      · simp only [Option.some.injEq, Prod.mk.injEq] at h
        rw [← h.2]
      · simp only [Option.some.injEq, Prod.mk.injEq] at h
        rw [← h.2]
  · simp only [Option.some.injEq, Prod.mk.injEq] at h
    rw [← h.2]

theorem insert_into_list_view (st : RGA) (nd : Node) (st2 : RGA) (nd2 : Node)
    (a : S4Vector) (h : st.insert_into_list nd = some (st2, nd2)) :
    (mapGet st2.hashMap a).map nodeView = (mapGet st.hashMap a).map nodeView := by
  unfold RGA.insert_into_list at h
  split at h
  · split at h
    · cases h
    · split at h
      · simp only [Option.some.injEq, Prod.mk.injEq] at h
        rw [← h.1]
        have hmod : ∀ current : S4Vector, ∀ g : Node → Node,
            (∀ n : Node, nodeView (g n) = nodeView n) →
            (mapGet (mapModify st.hashMap current g) a).map nodeView
              = (mapGet st.hashMap a).map nodeView := by
          intro current g hg
          rw [mapGet_mapModify]
          by_cases hca : current = a
          · subst hca
            rw [if_pos rfl, Option.map_map]
            cases mapGet st.hashMap current with
            | none => rfl
            | some n =>
                show some (nodeView (g n)) = some (nodeView n)
                rw [hg]
          · rw [if_neg hca]
        split <;> exact hmod _ _ (fun n => rfl)
      · simp only [Option.some.injEq, Prod.mk.injEq] at h
        rw [← h.1]
        split <;> rfl
  · simp only [Option.some.injEq, Prod.mk.injEq] at h
    rw [← h.1]

theorem remote_insert_buffer (st : RGA) (v : String) (s4 : S4Vector)
    (l r : Option S4Vector) (st2 : RGA) (h : st.remote_insert v s4 l r = some st2) :
    st2.buffer = st.buffer := by
  unfold RGA.remote_insert at h
  split at h
  · cases h
  · rename_i stx ndx heq
    simp only [Option.some.injEq] at h
    rw [← h]
    exact insert_into_list_buffer st _ stx ndx heq

theorem remote_delete_buffer (st : RGA) (s4 : S4Vector) :
    (st.remote_delete s4).buffer = st.buffer := by
  unfold RGA.remote_delete
  split <;> rfl

theorem remote_update_buffer (st : RGA) (s4 : S4Vector) (v : String) (st2 : RGA)
    (h : st.remote_update s4 v = some st2) : st2.buffer = st.buffer := by
  unfold RGA.remote_update at h
  split at h
  · cases h
  · split at h <;>
      (simp only [Option.some.injEq] at h; rw [← h])

theorem remote_insert_view (st : RGA) (v : String) (s4 : S4Vector)
    (l r : Option S4Vector) (st2 : RGA) (a : S4Vector) (hne : s4 ≠ a)
    (h : st.remote_insert v s4 l r = some st2) :
    (mapGet st2.hashMap a).map nodeView = (mapGet st.hashMap a).map nodeView := by
  unfold RGA.remote_insert at h
  split at h
  · cases h
  · rename_i stx ndx heq
    simp only [Option.some.injEq] at h
    rw [← h]
    show (mapGet (mapInsert stx.hashMap ndx.s4vector ndx) a).map nodeView = _
    rw [mapGet_mapInsert]
    have hs4 : ndx.s4vector = s4 := insert_into_list_s4 st _ stx ndx heq
    rw [hs4, if_neg hne]
    exact insert_into_list_view st _ stx ndx a heq

theorem remote_update_view (st : RGA) (s4 : S4Vector) (v : String) (st2 : RGA)
    (a : S4Vector) (v0 : String)
    (hP : (mapGet st.hashMap a).map nodeView = some (v0, true))
    (h : st.remote_update s4 v = some st2) :
    (mapGet st2.hashMap a).map nodeView = some (v0, true) := by
  unfold RGA.remote_update at h
  split at h
  · cases h
  · rename_i n heq
    split at h
    · simp only [Option.some.injEq] at h
      rw [← h]
      exact hP
    · rename_i htomb
      simp only [Option.some.injEq] at h
      rw [← h]
      show (mapGet (mapModify st.hashMap s4 _) a).map nodeView = _
      rw [mapGet_mapModify]
      by_cases hsa : s4 = a
      · subst hsa
        rw [heq] at hP
        simp only [Option.map_some'] at hP
        have : n.tombstone = true := congrArg Prod.snd (Option.some.inj hP)
        exact absurd this htomb
      · rw [if_neg hsa]
        exact hP

theorem remote_delete_view (st : RGA) (s4 : S4Vector) (a : S4Vector) (v0 : String)
    (hP : (mapGet st.hashMap a).map nodeView = some (v0, true)) :
    (mapGet (st.remote_delete s4).hashMap a).map nodeView = some (v0, true) := by
  unfold RGA.remote_delete
  split
  · exact hP
  · show (mapGet (mapModify st.hashMap s4 _) a).map nodeView = _
    rw [mapGet_mapModify]
    by_cases hsa : s4 = a
    · subst hsa
      rw [if_pos rfl]
      cases hg : mapGet st.hashMap s4 with
      | none => rw [hg] at hP; cases hP
      | some nA =>
          rw [hg] at hP
          simp only [Option.map_some'] at hP
          have hval : nA.value = v0 := congrArg Prod.fst (Option.some.inj hP)
          show some (nA.value, true) = some (v0, true)
          rw [hval]
    · rw [if_neg hsa]
      exact hP

theorem applyOp_view (st : RGA) (op : Operation) (st2 : RGA) (a : S4Vector) (v0 : String)
    (hne : op.operation = OperationType.Insert → op.s4vector ≠ a)
    (hP : (mapGet st.hashMap a).map nodeView = some (v0, true))
    (h : applyOp st op = some st2) :
    (mapGet st2.hashMap a).map nodeView = some (v0, true) := by
  unfold applyOp at h
  split at h
  · rename_i hop
    split at h
    · rename_i v hv
      rw [remote_insert_view st v op.s4vector op.left op.right st2 a (hne hop) h]
      exact hP
    · simp only [Option.some.injEq] at h
      rw [← h]
      exact hP
  · rename_i hop
    split at h
    · rename_i v hv
      exact remote_update_view st op.s4vector v st2 a v0 hP h
    · simp only [Option.some.injEq] at h
      rw [← h]
      exact hP
  · rename_i hop
    simp only [Option.some.injEq] at h
    rw [← h]
    exact remote_delete_view st op.s4vector a v0 hP

theorem sweepGo_view (a : S4Vector) (v0 : String) :
    ∀ (ops : List Operation) (st : RGA) (acc : List Operation)
      (st2 : RGA) (buf2 : List Operation),
      (∀ op ∈ ops, op.operation = OperationType.Insert → op.s4vector ≠ a) →
      (mapGet st.hashMap a).map nodeView = some (v0, true) →
      sweepGo ops st acc = some (st2, buf2) →
      (mapGet st2.hashMap a).map nodeView = some (v0, true) := by
  intro ops
  induction ops with
  | nil =>
      intro st acc st2 buf2 hops hP h
      unfold sweepGo at h
      simp only [Option.some.injEq, Prod.mk.injEq] at h
      rw [← h.1]
      exact hP
  | cons op rest ih =>
      intro st acc st2 buf2 hops hP h
      have hop : op.operation = OperationType.Insert → op.s4vector ≠ a :=
        hops op (List.mem_cons_self op rest)
      have hrest : ∀ o ∈ rest, o.operation = OperationType.Insert → o.s4vector ≠ a :=
        fun o ho => hops o (List.mem_cons_of_mem op ho)
      unfold sweepGo at h
      split at h
      · split at h
        · split at h
          · cases h
          · rename_i stn happ
            exact ih stn acc st2 buf2 hrest (applyOp_view st op stn a v0 hop hP happ) h
        · exact ih st (acc ++ [op]) st2 buf2 hrest hP h
      · split at h
        · cases h
        · rename_i stn happ
          exact ih stn acc st2 buf2 hrest (applyOp_view st op stn a v0 hop hP happ) h

theorem sweepGo_retained :
    ∀ (ops : List Operation) (st : RGA) (acc : List Operation)
      (st2 : RGA) (buf2 : List Operation),
      sweepGo ops st acc = some (st2, buf2) →
      ∃ retained, buf2 = acc ++ retained ∧ retained.Sublist ops ∧
        ∀ op ∈ retained, op.left ≠ none := by
  intro ops
  induction ops with
  | nil =>
      intro st acc st2 buf2 h
      unfold sweepGo at h
      simp only [Option.some.injEq, Prod.mk.injEq] at h
      exact ⟨[], by rw [← h.2, List.append_nil], List.nil_sublist [], by intro o ho; cases ho⟩
  | cons op rest ih =>
      intro st acc st2 buf2 h
      unfold sweepGo at h
      split at h
      · rename_i l hl
        split at h
        · split at h
          · cases h
          · rename_i stn happ
            obtain ⟨retained, hbuf, hsub, hleft⟩ := ih stn acc st2 buf2 h
            exact ⟨retained, hbuf, hsub.cons op, hleft⟩
        · obtain ⟨retained, hbuf, hsub, hleft⟩ := ih st (acc ++ [op]) st2 buf2 h
          refine ⟨op :: retained, ?_, hsub.cons₂ op, ?_⟩
          · rw [hbuf, List.append_assoc]
            rfl
          · intro o ho
            cases ho with
            | head => rw [hl]; exact fun hh => Option.noConfusion hh
            | tail _ ho2 => exact hleft o ho2
      · split at h
        · cases h
        · rename_i stn happ
          obtain ⟨retained, hbuf, hsub, hleft⟩ := ih stn acc st2 buf2 h
          exact ⟨retained, hbuf, hsub.cons op, hleft⟩

theorem apply_buffered_view (st : RGA) (st2 : RGA) (a : S4Vector) (v0 : String)
    (hops : ∀ op ∈ st.buffer, op.operation = OperationType.Insert → op.s4vector ≠ a)
    (hP : (mapGet st.hashMap a).map nodeView = some (v0, true))
    (h : st.apply_buffered_operations = some st2) :
    (mapGet st2.hashMap a).map nodeView = some (v0, true) := by
  unfold RGA.apply_buffered_operations at h
  split at h
  · cases h
  · rename_i stx bufx hsweep
    simp only [Option.some.injEq] at h
    rw [← h]
    exact sweepGo_view a v0 st.buffer st [] stx bufx hops hP hsweep

theorem apply_buffered_retained (st : RGA) (st2 : RGA)
    (h : st.apply_buffered_operations = some st2) :
    st2.buffer.Sublist st.buffer ∧ ∀ op ∈ st2.buffer, op.left ≠ none := by
  unfold RGA.apply_buffered_operations at h
  split at h
  · cases h
  · rename_i stx bufx hsweep
    simp only [Option.some.injEq] at h
    obtain ⟨retained, hbuf, hsub, hleft⟩ := sweepGo_retained st.buffer st [] stx bufx hsweep
    rw [← h]
    constructor
    · show bufx.Sublist st.buffer
      rw [hbuf, List.nil_append]
      exact hsub
    · show ∀ op ∈ bufx, op.left ≠ none
      rw [hbuf, List.nil_append]
      exact hleft

/-- C1: the convergence claim fails on the code.  Replica 1 locally
inserts X at the head (minting c1IdX) and then delivers the remote insert
of Y; replica 2 locally inserts Y (minting c1IdY) and then delivers the
remote insert of X.  Both replicas have delivered the same multiset of
operations, yet replica 1 reads ["Y"] and replica 2 reads ["X"]: a head
insert with no left anchor replaces head without linking the old head
(rga.rs lines 256-260), so the earlier element is orphaned. -/
theorem c1_convergence_violated :
    (((RGA.new 1 1).local_insert "X" none none).map fun p =>
        p.2.map BroadcastOperation.s4vector) = some (Except.ok c1IdX) ∧
    (((RGA.new 1 2).local_insert "Y" none none).map fun p =>
        p.2.map BroadcastOperation.s4vector) = some (Except.ok c1IdY) ∧
    c1Replica1.bind RGA.read = some ["Y"] ∧
    c1Replica2.bind RGA.read = some ["X"] := by
  exact ⟨rfl, rfl, rfl, rfl⟩

/-- C2: the insertion-positioning claim fails on the code.  After
delivering the anchor A, then C with left anchor A, then B with left
anchor A, where B < C in the total S4Vector order, the list reads
["A", "B", "C"]: the later insert B lands directly after the anchor even
though C is greater, because the scan loop compares each scan node with
its own successor (the loop variable shadows the inserted node, rga.rs
lines 239-248), so nodes with the same left_id end up in increasing
order, not decreasing. -/
theorem c2_insertion_order_violated :
    s4Lt c2B c2C = true ∧
    (c2St.bind fun s => mapGet s.hashMap c2B).map Node.left = some (some c2A) ∧
    (c2St.bind fun s => mapGet s.hashMap c2C).map Node.left = some (some c2A) ∧
    c2St.bind RGA.read = some ["A", "B", "C"] := by
  exact ⟨rfl, rfl, rfl, rfl⟩

/-- C3: the idempotence claim fails on the code.  After delivering
insert A and insert B (left anchor A) once, read gives ["A", "B"]; a
second delivery of the very same insert of B is not ignored
(remote_insert has no duplicate check, rga.rs lines 505-526): it
re-splices B after A, making the stored node at c3B point to itself, so
the state differs from the single-delivery state and read diverges
(modelled as none). -/
theorem c3_idempotence_violated :
    c3Once.bind RGA.read = some ["A", "B"] ∧
    (c3Twice.bind fun s => mapGet s.hashMap c3B).map Node.right = some (some c3B) ∧
    c3Twice.bind RGA.read = none := by
  exact ⟨rfl, rfl, rfl⟩

/-- C4: the snapshot round-trip claim fails on the code.  After the
insert route stores A and the delete route tombstones it, the in-memory
state reads []; but the delete route persisted the snapshot row with
value "" and tombstone false (routes.rs lines 700-710), and
fetch_document replays rows through remote_insert without passing the
tombstone (routes.rs line 273), so the reloaded document reads [""] and
the restored node is live. -/
theorem c4_snapshot_roundtrip_violated :
    (c4W2.bind fun w => w.rga.read) = some [] ∧
    (c4W2.bind fun w => mapGet w.rga.hashMap c4A).map Node.tombstone = some true ∧
    c4W2.map World.snapshot = some [{ s4 := c4A, value := "", tombstone := false }] ∧
    (c4W2.bind fun w => (fetch_document 1 w.snapshot).bind RGA.read) = some [""] ∧
    (c4W2.bind fun w => (fetch_document 1 w.snapshot).bind fun s =>
        mapGet s.hashMap c4A).map Node.tombstone = some false := by
  exact ⟨rfl, rfl, rfl, rfl, rfl⟩

/-- C5: the tombstone-monotonicity claim fails on the code.  After a
remote insert of A and a remote delete of A the stored tombstone is true;
redelivering the original remote insert of A overwrites the binding with
a fresh node whose tombstone is false (remote_insert has no duplicate
check and Node::new starts untombstoned), so the tombstone at c5A flips
from true back to false and the deleted element reappears in read. -/
theorem c5_tombstone_monotonicity_violated :
    (c5Mid.bind fun s => mapGet s.hashMap c5A).map Node.tombstone = some true ∧
    c5Mid.bind RGA.read = some [] ∧
    (c5Final.bind fun s => mapGet s.hashMap c5A).map Node.tombstone = some false ∧
    c5Final.bind RGA.read = some ["A"] := by
  exact ⟨rfl, rfl, rfl, rfl⟩

/-- C6: the out-of-order delivery claim fails on the code.  Starting
from an empty replica, the remote delete of c6A returns silently without
buffering anything (rga.rs lines 530-537), leaving the state unchanged;
the subsequent remote insert of A then applies with nothing pending to
promote, so the final read is ["A"], not the empty sequence the claim
requires. -/
theorem c6_out_of_order_delete_dropped :
    c6St1 = RGA.new 1 1 ∧
    c6St1.buffer = [] ∧
    c6St2.bind RGA.read = some ["A"] ∧
    c6St2.map RGA.buffer = some [] := by
  exact ⟨rfl, rfl, rfl, rfl⟩

/-- C7 counterexample: after a successful remote apply the pending
buffer is NOT swept.  In c7St the buffered insert c7OpB names the left
anchor c7A, which is present in by_id, so the claim requires the entry
to be applied and removed by the sweep following the successful
remote_insert of C; the code leaves the buffer untouched because the
sweep future in remote_insert is constructed but never awaited. -/
theorem c7_sweep_counterexample :
    mapContains c7St.hashMap c7A = true ∧
    c7OpB.left = some c7A ∧
    (c7St.remote_insert "C" { ssn := 1, sum := 1, sid := 1, seq := 3 } none none).map
      RGA.buffer = some [c7OpB] := by
  exact ⟨rfl, rfl, rfl⟩

/-- C7 amended: only the local operations run the sweep; the three
remote operations leave the buffer unchanged (their sweep future is
never polled).  When the sweep does run, it makes one pass checking
only the named left_id of each entry: the entries it retains form a
subsequence of the old buffer (original relative order) and every
retained entry names a left_id; entries without a named left_id,
including all buffered update and delete entries, are always dispatched
and removed. -/
theorem c7_sweep_amended :
    (∀ (st : RGA) (v : String) (s4 : S4Vector) (l r : Option S4Vector) (st2 : RGA),
        st.remote_insert v s4 l r = some st2 → st2.buffer = st.buffer) ∧
    (∀ (st : RGA) (s4 : S4Vector), (st.remote_delete s4).buffer = st.buffer) ∧
    (∀ (st : RGA) (s4 : S4Vector) (v : String) (st2 : RGA),
        st.remote_update s4 v = some st2 → st2.buffer = st.buffer) ∧
    (∀ (st st2 : RGA), st.apply_buffered_operations = some st2 →
        st2.buffer.Sublist st.buffer ∧ ∀ op ∈ st2.buffer, op.left ≠ none) :=
  ⟨fun st v s4 l r st2 h => remote_insert_buffer st v s4 l r st2 h,
   fun st s4 => remote_delete_buffer st s4,
   fun st s4 v st2 h => remote_update_buffer st s4 v st2 h,
   fun st st2 h => apply_buffered_retained st st2 h⟩

/-- C7 witness: the amended sweep statement applied to the concrete
state c7St, whose sweep dispatches the ready insert and retains
nothing. -/
theorem c7_sweep_amended_witness : c7WitSt2.buffer.Sublist c7St.buffer :=
  (c7_sweep_amended.2.2.2 c7St c7WitSt2 (by rfl)).1

/-- C8 counterexample: a local insert that names an ABSENT anchor does
not always get the dependency error.  In c8St the left anchor c8A is
present but the named right anchor c8R is absent from by_id; the claim
requires DependencyNotMet, yet local_insert checks only the left anchor
when one is named (rga.rs lines 289-314), so the call succeeds and
nothing is buffered. -/
theorem c8_dependency_counterexample :
    mapContains c8St.hashMap c8R = false ∧
    (c8St.local_insert "B" (some c8A) (some c8R)).map
      (fun p => match p.2 with | Except.ok _ => true | Except.error _ => false)
      = some true ∧
    (c8St.local_insert "B" (some c8A) (some c8R)).map (fun p => p.1.buffer)
      = some [] := by
  exact ⟨rfl, rfl, rfl⟩

/-- C8 amended: the dependency error fires exactly on the checked
anchor - the left anchor when one is named, otherwise the named right
anchor - and on a missing update or delete target; in each such case the
engine appends the operation to pending and returns the dependency
error, and the route then changes only the in-memory RGA: the operation
log, the snapshot table and the set of published broadcasts are exactly
as before. -/
theorem c8_dependency_amended :
    (∀ (st : RGA) (v : String) (l : S4Vector) (r : Option S4Vector),
        mapContains st.hashMap l = false →
        st.local_insert v (some l) r = some (
          { st with localSequence := st.localSequence + 1
                    buffer := st.buffer ++
                      [{ operation := OperationType.Insert
                         s4vector := S4Vector.generate (some l) r st.sessionId st.siteId st.localSequence
                         value := some v, tombstone := false, left := some l, right := r }] },
          Except.error OperationError.DependancyError)) ∧
    (∀ (st : RGA) (v : String) (r : S4Vector),
        mapContains st.hashMap r = false →
        st.local_insert v none (some r) = some (
          { st with localSequence := st.localSequence + 1
                    buffer := st.buffer ++
                      [{ operation := OperationType.Insert
                         s4vector := S4Vector.generate none (some r) st.sessionId st.siteId st.localSequence
                         value := some v, tombstone := false, left := none, right := some r }] },
          Except.error OperationError.DependancyError)) ∧
    (∀ (st : RGA) (s4 : S4Vector) (v : String),
        mapGet st.hashMap s4 = none →
        st.local_update s4 v = some (
          { st with buffer := st.buffer ++
              [{ operation := OperationType.Update, s4vector := s4, value := some v
                 tombstone := false, left := none, right := none }] },
          Except.error OperationError.DependancyError)) ∧
    (∀ (st : RGA) (s4 : S4Vector),
        mapGet st.hashMap s4 = none →
        st.local_delete s4 = some (
          { st with buffer := st.buffer ++
              [{ operation := OperationType.Delete, s4vector := s4, value := none
                 tombstone := false, left := none, right := none }] },
          Except.error OperationError.DependancyError)) ∧
    (∀ (w : World) (v : String) (l : S4Vector) (r : Option S4Vector),
        mapContains w.rga.hashMap l = false →
        insertRoute w (some v) (some l) r
            = some ({ w with rga :=
                { w.rga with localSequence := w.rga.localSequence + 1
                             buffer := w.rga.buffer ++
                    [{ operation := OperationType.Insert
                       s4vector := S4Vector.generate (some l) r w.rga.sessionId w.rga.siteId w.rga.localSequence
                       value := some v, tombstone := false, left := some l, right := r }] } },
              Except.error ApiError.RequestFailed)) ∧
    (∀ (w : World) (v : String) (s4 : S4Vector),
        mapGet w.rga.hashMap s4 = none →
        updateRoute w (some v) (some s4)
            = some ({ w with rga :=
                { w.rga with buffer := w.rga.buffer ++
                    [{ operation := OperationType.Update, s4vector := s4, value := some v
                       tombstone := false, left := none, right := none }] } },
              Except.error ApiError.RequestFailed)) ∧
    (∀ (w : World) (s4 : S4Vector),
        mapGet w.rga.hashMap s4 = none →
        deleteRoute w (some s4)
            = some ({ w with rga :=
                { w.rga with buffer := w.rga.buffer ++
                    [{ operation := OperationType.Delete, s4vector := s4, value := none
                       tombstone := false, left := none, right := none }] } },
              Except.error ApiError.RequestFailed)) := by
  have ha : ∀ (st : RGA) (v : String) (l : S4Vector) (r : Option S4Vector),
      mapContains st.hashMap l = false →
      st.local_insert v (some l) r = some (
        { st with localSequence := st.localSequence + 1
                  buffer := st.buffer ++
                    [{ operation := OperationType.Insert
                       s4vector := S4Vector.generate (some l) r st.sessionId st.siteId st.localSequence
                       value := some v, tombstone := false, left := some l, right := r }] },
        Except.error OperationError.DependancyError) := by
    intro st v l r h
    cases r with
    | none => simp [RGA.local_insert, h]
    | some rr => simp [RGA.local_insert, h]
  have hb : ∀ (st : RGA) (v : String) (r : S4Vector),
      mapContains st.hashMap r = false →
      st.local_insert v none (some r) = some (
        { st with localSequence := st.localSequence + 1
                  buffer := st.buffer ++
                    [{ operation := OperationType.Insert
                       s4vector := S4Vector.generate none (some r) st.sessionId st.siteId st.localSequence
                       value := some v, tombstone := false, left := none, right := some r }] },
        Except.error OperationError.DependancyError) := by
    intro st v r h
    simp [RGA.local_insert, h]
  have hc : ∀ (st : RGA) (s4 : S4Vector) (v : String),
      mapGet st.hashMap s4 = none →
      st.local_update s4 v = some (
        { st with buffer := st.buffer ++
            [{ operation := OperationType.Update, s4vector := s4, value := some v
               tombstone := false, left := none, right := none }] },
        Except.error OperationError.DependancyError) := by
    intro st s4 v h
    simp [RGA.local_update, h]
  have hd : ∀ (st : RGA) (s4 : S4Vector),
      mapGet st.hashMap s4 = none →
      st.local_delete s4 = some (
        { st with buffer := st.buffer ++
            [{ operation := OperationType.Delete, s4vector := s4, value := none
               tombstone := false, left := none, right := none }] },
        Except.error OperationError.DependancyError) := by
    intro st s4 h
    simp [RGA.local_delete, h]
  refine ⟨ha, hb, hc, hd, ?_, ?_, ?_⟩
  · intro w v l r h
    simp [insertRoute, ha w.rga v l r h]
  · intro w v s4 h
    simp [updateRoute, hc w.rga s4 v h]
  · intro w s4 h
    simp [deleteRoute, hd w.rga s4 h]

/-- C8 witness: the amended statement applied to a fresh replica and a
missing update target. -/
theorem c8_dependency_amended_witness :
    (RGA.new 1 1).local_update { ssn := 1, sum := 1, sid := 1, seq := 1 } "x"
      = some (
        { RGA.new 1 1 with buffer := (RGA.new 1 1).buffer ++
            [{ operation := OperationType.Update
               s4vector := { ssn := 1, sum := 1, sid := 1, seq := 1 }
               value := some "x", tombstone := false, left := none, right := none }] },
        Except.error OperationError.DependancyError) :=
  c8_dependency_amended.2.2.1 (RGA.new 1 1) { ssn := 1, sum := 1, sid := 1, seq := 1 } "x" rfl

/-- C9: remote_update is not total at the public engine interface.  For
any S4Vector absent from by_id, remote_update indexes the hash map
directly and panics (modelled as none) instead of buffering or
returning, while remote_delete on the same missing id returns silently
with the state unchanged; consequently the SNS handler dispatching an
Update broadcast for the missing id also aborts. -/
theorem c9_remote_update_partial (st : RGA) (s4 : S4Vector) (v : String)
    (h : mapGet st.hashMap s4 = none) :
    st.remote_update s4 v = none ∧
    st.remote_delete s4 = st ∧
    handle_sns_notification st
      { operation := "Update", ssn := s4.ssn, sum := s4.sum, sid := s4.sid, seq := s4.seq
        value := some v, left := none, right := none } = none := by
  have h1 : st.remote_update s4 v = none := by
    unfold RGA.remote_update
    rw [h]
  have h2 : st.remote_delete s4 = st := by
    unfold RGA.remote_delete
    rw [h]
  refine ⟨h1, h2, ?_⟩
  show (match st.remote_update
      (BroadcastOperation.s4vector
        { operation := "Update", ssn := s4.ssn, sum := s4.sum, sid := s4.sid, seq := s4.seq
          value := some v, left := none, right := none }) v with
    | none => none
    | some st2 => some (st2, Except.ok ())) = none
  have hs4 : BroadcastOperation.s4vector
      { operation := "Update", ssn := s4.ssn, sum := s4.sum, sid := s4.sid, seq := s4.seq
        value := some v, left := none, right := none } = s4 := rfl
  rw [hs4, h1]

/-- C9 witness: the theorem applied to an empty replica and a concrete
missing identifier. -/
theorem c9_remote_update_partial_witness :
    (RGA.new 1 1).remote_update { ssn := 1, sum := 1, sid := 1, seq := 1 } "x" = none ∧
    (RGA.new 1 1).remote_delete { ssn := 1, sum := 1, sid := 1, seq := 1 } = RGA.new 1 1 ∧
    handle_sns_notification (RGA.new 1 1)
      { operation := "Update", ssn := 1, sum := 1, sid := 1, seq := 1
        value := some "x", left := none, right := none } = none :=
  c9_remote_update_partial (RGA.new 1 1) { ssn := 1, sum := 1, sid := 1, seq := 1 } "x" rfl

/-- C10 counterexample: local_update on a tombstoned target does not
always report success.  In c10St the target c10A exists with tombstone
true, but the pending buffer holds an update entry whose own target c10M
is absent from by_id; the sweep that local_update runs dispatches that
entry into remote_update, which panics on the missing key, so the call
aborts (none) instead of returning Ok. -/
theorem c10_update_tombstoned_counterexample :
    mapGet c10St.hashMap c10A = some c10NodeA ∧
    c10NodeA.tombstone = true ∧
    c10St.local_update c10A "new" = none := by
  exact ⟨rfl, rfl, rfl⟩

/-- C10 amended: whenever the target id exists with tombstone true, the
pending buffer holds no insert entry carrying the target id, and the
call returns at all (the buffer sweep does not panic), local_update
leaves the node value unchanged with the tombstone still set, and returns Ok
with an Update broadcast descriptor carrying the old value, so the
caller persists and broadcasts an update that changed nothing. -/
theorem c10_update_tombstoned_amended (st : RGA) (a : S4Vector) (v : String) (n : Node)
    (p : RGA × Except OperationError BroadcastOperation)
    (hget : mapGet st.hashMap a = some n)
    (htomb : n.tombstone = true)
    (hbuf : ∀ op ∈ st.buffer, op.operation = OperationType.Insert → op.s4vector ≠ a)
    (hrun : st.local_update a v = some p) :
    p.2.map (fun op2 => (op2.operation, op2.value)) = Except.ok ("Update", some n.value) ∧
    (mapGet p.1.hashMap a).map nodeView = some (n.value, true) := by
  unfold RGA.local_update at hrun
  split at hrun
  · rename_i heq
    rw [hget] at heq
    exact Option.noConfusion heq
  · rename_i n' heq
    rw [hget] at heq
    have hn := Option.some.inj heq
    subst hn
    simp only [htomb, eq_self_iff_true, if_true] at hrun
    split at hrun
    · cases hrun
    · rename_i st2 habo
      have hview : (mapGet st2.hashMap a).map nodeView = some (n.value, true) := by
        apply apply_buffered_view st st2 a n.value hbuf ?_ habo
        rw [hget]
        show some (n.value, n.tombstone) = some (n.value, true)
        rw [htomb]
      split at hrun
      · rename_i heq2
        rw [heq2] at hview
        cases hview
      · rename_i n2 heq2
        have hview2 : nodeView n2 = (n.value, true) := by
          rw [heq2] at hview
          exact Option.some.inj hview
        have hval : n2.value = n.value := congrArg Prod.fst hview2
        have htb2 : n2.tombstone = true := congrArg Prod.snd hview2
        simp only [Option.some.injEq] at hrun
        rw [← hrun]
        constructor
        · show Except.ok ("Update", some n2.value)
            = Except.ok (("Update" : String), some n.value)
          rw [hval]
        · show (mapGet st2.hashMap a).map nodeView = some (n.value, true)
          exact hview

/-- C10 witness: the amended statement applied to the concrete replica
c10WSt, whose only node is tombstoned and whose buffer is empty. -/
theorem c10_update_tombstoned_amended_witness :
    c10WP.2.map (fun op2 => (op2.operation, op2.value))
      = Except.ok ("Update", some c10NodeA.value) ∧
    (mapGet c10WP.1.hashMap c10A).map nodeView = some (c10NodeA.value, true) :=
  c10_update_tombstoned_amended c10WSt c10A "z" c10NodeA c10WP rfl rfl
    (by intro op ho; cases ho) rfl
